import Mathlib

/-
Verification of the ball-physics core of the portfolio repository:
the collision resolver and roster store (useBalls hook) and the per-ball
integrator (Ball component).  Numbers are modelled as real numbers; the
clock reading taken via Date.now() inside checkCollisions is made an
explicit `currentTime` argument of the embedding.  Ball ids are modelled
as natural numbers (the source uses opaque unique strings).
-/

noncomputable section

/-- Plain 2D vector with x/y components, modelling the `{x, y}` records. -/
structure Vec2 where
  x : ℝ
  y : ℝ

/-- Shallow embedding of the `BallData` interface of the store. -/
structure BallData where
  id : ℕ
  position : Vec2
  velocity : Vec2
  isAnimating : Bool
  isDragging : Bool
  size : ℝ
  lastCollisionTime : Option ℝ

/-- Shallow embedding of the `CollisionUpdate` interface: a deferred
correction for one non-acting ball.  `lastCollisionTime = none` models an
absent optional field. -/
structure CollisionUpdate where
  id : ℕ
  velocity : Vec2
  position : Vec2
  isAnimating : Bool
  lastCollisionTime : Option ℝ

/-- Shallow embedding of the `CollisionResult` interface returned by
`checkCollisions`. -/
structure CollisionResult where
  velocity : Vec2
  position : Vec2
  collided : Bool
  otherBallUpdates : List CollisionUpdate

/-- Running state of the candidate loop inside `checkCollisions`:
the mutable locals `newVelocity`, `newPosition`, `hasCollided`,
`otherBallUpdates`. -/
structure LoopState where
  vel : Vec2
  pos : Vec2
  hasCollided : Bool
  otherBallUpdates : List CollisionUpdate

/-- Mass law used in both files: `Math.pow(size / 80, 2)`. -/
def massOf (size : ℝ) : ℝ := (size / 80) ^ 2

/-- Center-to-center x offset `dx` computed in `checkCollisions` from the
acting ball's running position `pos` and the candidate `ob`. -/
def dxOf (cb : BallData) (pos : Vec2) (ob : BallData) : ℝ :=
  pos.x + cb.size / 2 - (ob.position.x + ob.size / 2)

/-- Center-to-center y offset `dy` computed in `checkCollisions`. -/
def dyOf (cb : BallData) (pos : Vec2) (ob : BallData) : ℝ :=
  pos.y + cb.size / 2 - (ob.position.y + ob.size / 2)

/-- The `distance = Math.sqrt(dx*dx + dy*dy)` of `checkCollisions`. -/
def distOf (cb : BallData) (pos : Vec2) (ob : BallData) : ℝ :=
  Real.sqrt (dxOf cb pos ob * dxOf cb pos ob + dyOf cb pos ob * dyOf cb pos ob)

/-- The `minDistance = (currentBall.size + otherBall.size) / 2`. -/
def minDistOf (cb ob : BallData) : ℝ := (cb.size + ob.size) / 2

/-- Relative velocity of the acting ball against `ob` projected on the
collision normal: the `speed = rvx * nx + rvy * ny` of the source. -/
def relSpeed (cb : BallData) (pos vel : Vec2) (ob : BallData) : ℝ :=
  (vel.x - ob.velocity.x) * (dxOf cb pos ob / distOf cb pos ob) +
    (vel.y - ob.velocity.y) * (dyOf cb pos ob / distOf cb pos ob)

/-- Overlap test of the source, `distance < minDistance && distance > 0`,
written with the strict bounds in the spec's order. -/
def overlapDetected (cb : BallData) (pos : Vec2) (ob : BallData) : Prop :=
  0 < distOf cb pos ob ∧ distOf cb pos ob < minDistOf cb ob

/-- Candidate predicate of `checkCollisions`: skip self, dragging balls and
balls inside the 50ms collision cooldown. -/
def candidateFilter (currentBallId : ℕ) (currentTime : ℝ) (ball : BallData) : Bool :=
  (ball.id != currentBallId) && (!ball.isDragging) &&
    (match ball.lastCollisionTime with
     | none => true
     | some t => decide (currentTime - t > 50))

/-- Body of the `for (const otherBall of currentBallsState)` loop of
`checkCollisions`, acting on the running `LoopState`. -/
def collideStep (cb : BallData) (currentTime : ℝ) (st : LoopState) (ob : BallData) :
    LoopState :=
  let distance := distOf cb st.pos ob
  let minDistance := minDistOf cb ob
  if distance < minDistance ∧ distance > 0 then
    -- hasCollided is set as soon as the overlap is detected
    let nx := dxOf cb st.pos ob / distance
    let ny := dyOf cb st.pos ob / distance
    let speed := relSpeed cb st.pos st.vel ob
    if speed > 0 then { st with hasCollided := true }
    else
      let mass1 := massOf cb.size
      let mass2 := massOf ob.size
      let totalMass := mass1 + mass2
      let restitution := (0.7 : ℝ)
      let impulse := 2 * speed * restitution / totalMass
      let overlap := minDistance - distance + 2
      let mass1Factor := mass2 / totalMass
      let mass2Factor := mass1 / totalMass
      { vel := ⟨st.vel.x - impulse * mass2 * nx, st.vel.y - impulse * mass2 * ny⟩
        pos := ⟨st.pos.x + nx * overlap * mass1Factor,
                st.pos.y + ny * overlap * mass1Factor⟩
        hasCollided := true
        otherBallUpdates := st.otherBallUpdates ++
          [⟨ob.id,
            ⟨ob.velocity.x + impulse * mass1 * nx, ob.velocity.y + impulse * mass1 * ny⟩,
            ⟨ob.position.x - nx * overlap * mass2Factor,
             ob.position.y - ny * overlap * mass2Factor⟩,
            true, some currentTime⟩] }
  else st

/-- Shallow embedding of `checkCollisions`.  The source reads the clock via
Date.now(); that hidden input is the explicit `currentTime` parameter. -/
def checkCollisions (currentBallId : ℕ) (position velocity : Vec2)
    (currentBalls : List BallData) (currentTime : ℝ) : CollisionResult :=
  match currentBalls.find? (fun ball => ball.id == currentBallId) with
  | none => ⟨velocity, position, false, []⟩
  | some currentBall =>
    let currentBallsState := currentBalls.filter (candidateFilter currentBallId currentTime)
    let final := currentBallsState.foldl (collideStep currentBall currentTime)
      ⟨velocity, position, false, []⟩
    ⟨final.vel, final.pos, final.hasCollided, final.otherBallUpdates⟩

/-- Time-independent part of a deferred update (everything except the
`lastCollisionTime` stamp). -/
def stripTime (u : CollisionUpdate) : ℕ × Vec2 × Vec2 × Bool :=
  (u.id, u.velocity, u.position, u.isAnimating)

/-- A reference to a `{x, y}` object supplied in a patch: the
dereferenced coordinates together with whether it is the very object
currently stored in the field of the ball being patched.  JavaScript's
strict inequality on objects compares references, not coordinates, so
this identity bit — not the value — is what the `hasChanges` test of
`updateBall` reads for the `position` and `velocity` keys. -/
structure ObjRef where
  val : Vec2
  sameRef : Bool

/-- Shallow embedding of `Partial<BallData>`: each field is optionally
supplied.  The object-valued `position` and `velocity` keys carry an
`ObjRef` (value plus reference identity); `lastCollisionTime = some v`
means the key is present with value `v` (itself optional in `BallData`). -/
structure BallPatch where
  id : Option ℕ
  position : Option ObjRef
  velocity : Option ObjRef
  isAnimating : Option Bool
  isDragging : Option Bool
  size : Option ℝ
  lastCollisionTime : Option (Option ℝ)

/-- The object-spread merge `{ ...ball, ...updates }`: supplied fields
overwrite (object-valued keys store the supplied object's coordinates),
absent fields keep the existing value. -/
def mergePatch (b : BallData) (u : BallPatch) : BallData where
  id := u.id.getD b.id
  position := match u.position with | some w => w.val | none => b.position
  velocity := match u.velocity with | some w => w.val | none => b.velocity
  isAnimating := u.isAnimating.getD b.isAnimating
  isDragging := u.isDragging.getD b.isDragging
  size := u.size.getD b.size
  lastCollisionTime := u.lastCollisionTime.getD b.lastCollisionTime

/-- The `hasChanges` test of `updateBall`:
`Object.keys(updates).some(key => existingBall[key] !== updates[key])`.
Strict inequality compares the primitive fields by value but the
object-valued `position` and `velocity` by reference, so for those keys a
supplied object registers as a change exactly when it is not the stored
object itself (`sameRef = false`), regardless of its coordinates. -/
def patchChanges (b : BallData) (u : BallPatch) : Prop :=
  (∃ v, u.id = some v ∧ v ≠ b.id) ∨
  (∃ w, u.position = some w ∧ w.sameRef = false) ∨
  (∃ w, u.velocity = some w ∧ w.sameRef = false) ∨
  (∃ v, u.isAnimating = some v ∧ v ≠ b.isAnimating) ∨
  (∃ v, u.isDragging = some v ∧ v ≠ b.isDragging) ∨
  (∃ v, u.size = some v ∧ v ≠ b.size) ∨
  (∃ v, u.lastCollisionTime = some v ∧ v ≠ b.lastCollisionTime)

open Classical in
/-- Shallow embedding of the `updateBall` state updater: find the ball,
bail out when nothing supplied registers as changed, otherwise merge into
the matching ball.  The Boolean records the observable React distinguishes:
`true` when the updater produced a fresh array (a change is emitted and
dependents recompute), `false` when it returned `prev` itself (the skip). -/
def updateBall (id : ℕ) (u : BallPatch) (prev : List BallData) :
    List BallData × Bool :=
  match prev.find? (fun ball => ball.id == id) with
  | none => (prev, false)
  | some existingBall =>
    if patchChanges existingBall u then
      (prev.map (fun ball => if ball.id == id then mergePatch ball u else ball), true)
    else (prev, false)

/-- The object-spread merge `{ ...ball, ...update }` used by
`applyCollisionUpdates`; every `CollisionUpdate` field overwrites, the
optional stamp only when present. -/
def mergeUpdate (b : BallData) (u : CollisionUpdate) : BallData :=
  { b with
    id := u.id
    velocity := u.velocity
    position := u.position
    isAnimating := u.isAnimating
    lastCollisionTime :=
      match u.lastCollisionTime with
      | some t => some t
      | none => b.lastCollisionTime }

/-- Shallow embedding of `applyCollisionUpdates`: early return on an empty
batch, otherwise map each roster ball through its matching update. -/
def applyCollisionUpdates (updates : List CollisionUpdate) (prev : List BallData) :
    List BallData :=
  if updates.isEmpty then prev
  else prev.map (fun ball =>
    match updates.find? (fun u => u.id == ball.id) with
    | some u => mergeUpdate ball u
    | none => ball)

/-- Gravity constant of the integrator: `0.6 * Math.min(mass, 2)`. -/
def gravityOf (size : ℝ) : ℝ := 0.6 * min (massOf size) 2

/-- Bounce constant of the integrator: `0.85 * (1 - mass * 0.1)`. -/
def bounceOf (size : ℝ) : ℝ := 0.85 * (1 - massOf size * 0.1)

/-- Friction constant of the integrator: `0.997 + mass * 0.001`. -/
def frictionOf (size : ℝ) : ℝ := 0.997 + massOf size * 0.001

/-- Momentum scale applied on drag release: `0.75 * (1 + mass * 0.2)`. -/
def momentumScale (size : ℝ) : ℝ := 0.75 * (1 + massOf size * 0.2)

/-- Tentative velocity at tick start: friction on x, gravity on y. -/
def tentVel (size : ℝ) (vel : Vec2) : Vec2 :=
  ⟨vel.x * frictionOf size, vel.y + gravityOf size⟩

/-- Tentative position at tick start: old position plus the tentative
velocity. -/
def tentPos (size : ℝ) (pos vel : Vec2) : Vec2 :=
  ⟨pos.x + (tentVel size vel).x, pos.y + (tentVel size vel).y⟩

/-- Velocity after the collision-resolver consultation; `cr = some (v, p)`
models a resolver call that reported `collided = true` with corrected
velocity `v` and position `p`, and `cr = none` models no collision
(or a single-ball roster, where the resolver is not called). -/
def postCollVel (size : ℝ) (vel : Vec2) (cr : Option (Vec2 × Vec2)) : Vec2 :=
  match cr with
  | some vp => vp.1
  | none => tentVel size vel

/-- Position after the collision-resolver consultation. -/
def postCollPos (size : ℝ) (pos vel : Vec2) (cr : Option (Vec2 × Vec2)) : Vec2 :=
  match cr with
  | some vp => vp.2
  | none => tentPos size pos vel

/-- Horizontal velocity after the wall check of the integrator. -/
def postWallVelX (bounds : Vec2) (size x vx : ℝ) : ℝ :=
  if x ≤ 0 ∨ x ≥ bounds.x - size then -vx * bounceOf size else vx

/-- Horizontal position after the wall check of the integrator. -/
def postWallX (bounds : Vec2) (size x : ℝ) : ℝ :=
  if x ≤ 0 ∨ x ≥ bounds.x - size then (if x ≤ 0 then 0 else bounds.x - size) else x

/-- Final clamp of the tick to the container:
`Math.max(0, Math.min(bounds - size, coordinate))` on each axis. -/
def clampPos (bounds : Vec2) (size : ℝ) (p : Vec2) : Vec2 :=
  ⟨max 0 (min (bounds.x - size) p.x), max 0 (min (bounds.y - size) p.y)⟩

/-- Outcome of one integrator tick: position, velocity and whether the
ball is still animating (`false` exactly on the settle branch). -/
structure TickResult where
  pos : Vec2
  vel : Vec2
  animating : Bool

/-- Wall / floor / ceiling part of the `animate` tick, before the final
position clamp: returns the raw position, the velocity and the animating
flag. -/
def animateRaw (bounds : Vec2) (size : ℝ) (pos vel : Vec2)
    (cr : Option (Vec2 × Vec2)) : Vec2 × Vec2 × Bool :=
  let vx := (postCollVel size vel cr).x
  let vy := (postCollVel size vel cr).y
  let x := (postCollPos size pos vel cr).x
  let y := (postCollPos size pos vel cr).y
  let vx2 := postWallVelX bounds size x vx
  let x2 := postWallX bounds size x
  if y ≥ bounds.y - size then
    let vy2 := -vy * bounceOf size
    let vy3 := if |vy2| < 3 then 0 else vy2
    if |vy3| < 0.1 ∧ |vx2| < 1 then (⟨x2, bounds.y - size⟩, ⟨0, 0⟩, false)
    else if bounds.y - size ≤ 0 then
      (⟨x2, 0⟩, ⟨vx2, -vy3 * bounceOf size⟩, true)
    else (⟨x2, bounds.y - size⟩, ⟨vx2, vy3⟩, true)
  else if y ≤ 0 then (⟨x2, 0⟩, ⟨vx2, -vy * bounceOf size⟩, true)
  else (⟨x2, y⟩, ⟨vx2, vy⟩, true)

/-- One full integrator tick: the raw update followed by the final clamp
of the position to the container bounds. -/
def animateTick (bounds : Vec2) (size : ℝ) (pos vel : Vec2)
    (cr : Option (Vec2 × Vec2)) : TickResult :=
  ⟨clampPos bounds size (animateRaw bounds size pos vel cr).1,
   (animateRaw bounds size pos vel cr).2.1,
   (animateRaw bounds size pos vel cr).2.2⟩

/-- Drag-interaction state of one ball: the flags, the committed velocity
and the exponentially smoothed drag-velocity accumulator. -/
structure DragState where
  isDragging : Bool
  isAnimating : Bool
  velocity : Vec2
  dragVelocity : Vec2

/-- Shallow embedding of `handleMouseUp`: no-op unless dragging, otherwise
commit the scaled accumulator as release velocity and resume animating. -/
def handleMouseUp (size : ℝ) (s : DragState) : DragState :=
  if s.isDragging then
    { s with
      isDragging := false
      isAnimating := true
      velocity := ⟨s.dragVelocity.x * momentumScale size,
                   s.dragVelocity.y * momentumScale size⟩ }
  else s

/-- Loop state at the start of `checkCollisions` for zero tentative
velocity and position at the origin. -/
def initState : LoopState := ⟨⟨0, 0⟩, ⟨0, 0⟩, false, []⟩

/-- Concrete acting ball used in the example computations. -/
def ballA : BallData := ⟨1, ⟨0, 0⟩, ⟨0, 0⟩, true, false, 80, none⟩

/-- Concrete size-80 ball whose center is 40px right of `ballA`'s. -/
def ballB : BallData := ⟨2, ⟨40, 0⟩, ⟨0, 0⟩, true, false, 80, none⟩

/-- Variant of `ballB` carrying a collision stamp at time 100. -/
def ballBcool : BallData := ⟨2, ⟨40, 0⟩, ⟨0, 0⟩, true, false, 80, some 100⟩

/-- Concrete size-80 ball whose center is 79px right of `ballA`'s. -/
def ballB79 : BallData := ⟨2, ⟨79, 0⟩, ⟨0, 0⟩, true, false, 80, none⟩

/-- Concrete size-80 ball whose center is 81px right of `ballA`'s. -/
def ballB81 : BallData := ⟨2, ⟨81, 0⟩, ⟨0, 0⟩, true, false, 80, none⟩

/-- Concrete size-80 ball coincident with `ballA`. -/
def ballB0 : BallData := ⟨2, ⟨0, 0⟩, ⟨0, 0⟩, true, false, 80, none⟩

/-- Concrete update batch entry addressed to ball id 2. -/
def collUpd2 : CollisionUpdate := ⟨2, ⟨1, 1⟩, ⟨5, 5⟩, true, some 7⟩

/-- Concrete store patch supplying only `ballA`'s own stored position
object (same reference, hence equal coordinates). -/
def patchSameRef00 : BallPatch := ⟨none, some ⟨⟨0, 0⟩, true⟩, none, none, none, none, none⟩

/-- Concrete store patch supplying only a freshly constructed position
object whose coordinates `(0, 0)` equal `ballA`'s stored ones — the shape
the Ball component's report effect sends every time. -/
def patchFresh00 : BallPatch := ⟨none, some ⟨⟨0, 0⟩, false⟩, none, none, none, none, none⟩

/-- Concrete dragging state with accumulator `(4, 6)`. -/
def dragS0 : DragState := ⟨true, false, ⟨0, 0⟩, ⟨4, 6⟩⟩

end

section

/-- When the acting id is found, `checkCollisions` is the candidate fold. -/
lemma checkCollisions_found (a : ℕ) (p v : Vec2) (balls : List BallData) (t : ℝ)
    (cb : BallData) (hfind : balls.find? (fun ball => ball.id == a) = some cb) :
    checkCollisions a p v balls t =
      ⟨((balls.filter (candidateFilter a t)).foldl (collideStep cb t) ⟨v, p, false, []⟩).vel,
       ((balls.filter (candidateFilter a t)).foldl (collideStep cb t) ⟨v, p, false, []⟩).pos,
       ((balls.filter (candidateFilter a t)).foldl (collideStep cb t) ⟨v, p, false, []⟩).hasCollided,
       ((balls.filter (candidateFilter a t)).foldl (collideStep cb t)
         ⟨v, p, false, []⟩).otherBallUpdates⟩ := by
  unfold checkCollisions
  rw [hfind]

/-- When the acting id is absent, `checkCollisions` returns the inputs. -/
lemma checkCollisions_notfound (a : ℕ) (p v : Vec2) (balls : List BallData) (t : ℝ)
    (hfind : balls.find? (fun ball => ball.id == a) = none) :
    checkCollisions a p v balls t = ⟨v, p, false, []⟩ := by
  unfold checkCollisions
  rw [hfind]

/-- A loop step reports a collision exactly when one was already reported
or the current candidate overlaps at the running position. -/
lemma collideStep_hasCollided (cb : BallData) (t : ℝ) (st : LoopState) (ob : BallData) :
    ((collideStep cb t st ob).hasCollided = true) ↔
      (st.hasCollided = true ∨ overlapDetected cb st.pos ob) := by
  simp only [collideStep]
  by_cases h : distOf cb st.pos ob < minDistOf cb ob ∧ distOf cb st.pos ob > 0
  · rw [if_pos h]
    by_cases hs : relSpeed cb st.pos st.vel ob > 0
    · rw [if_pos hs]
      exact ⟨fun _ => Or.inr ⟨h.2, h.1⟩, fun _ => rfl⟩
    · rw [if_neg hs]
      exact ⟨fun _ => Or.inr ⟨h.2, h.1⟩, fun _ => rfl⟩
  · rw [if_neg h]
    constructor
    · exact Or.inl
    · rintro (hc | ⟨hd1, hd2⟩)
      · exact hc
      · exact absurd ⟨hd2, hd1⟩ h

/-- Horizontal x offset for the pair `ballA` / `ballB`. -/
lemma dxOf_ballA_ballB : dxOf ballA ⟨0, 0⟩ ballB = -40 := by
  norm_num [dxOf, ballA, ballB]

/-- Vertical y offset for the pair `ballA` / `ballB`. -/
lemma dyOf_ballA_ballB : dyOf ballA ⟨0, 0⟩ ballB = 0 := by
  norm_num [dyOf, ballA, ballB]

/-- Center distance for the pair `ballA` / `ballB` is 40. -/
lemma distOf_ballA_ballB : distOf ballA ⟨0, 0⟩ ballB = 40 := by
  rw [distOf, dxOf_ballA_ballB, dyOf_ballA_ballB,
    show ((-40 : ℝ) * -40 + 0 * 0) = 40 ^ 2 by norm_num]
  exact Real.sqrt_sq (by norm_num)

/-- Center distance for the pair `ballA` / `ballBcool` is 40. -/
lemma distOf_ballA_ballBcool : distOf ballA ⟨0, 0⟩ ballBcool = 40 := by
  rw [distOf,
    show dxOf ballA ⟨0, 0⟩ ballBcool = -40 by norm_num [dxOf, ballA, ballBcool],
    show dyOf ballA ⟨0, 0⟩ ballBcool = 0 by norm_num [dyOf, ballA, ballBcool],
    show ((-40 : ℝ) * -40 + 0 * 0) = 40 ^ 2 by norm_num]
  exact Real.sqrt_sq (by norm_num)

/-- Center distance for the pair `ballA` / `ballB79` is 79. -/
lemma distOf_ballA_ballB79 : distOf ballA ⟨0, 0⟩ ballB79 = 79 := by
  rw [distOf,
    show dxOf ballA ⟨0, 0⟩ ballB79 = -79 by norm_num [dxOf, ballA, ballB79],
    show dyOf ballA ⟨0, 0⟩ ballB79 = 0 by norm_num [dyOf, ballA, ballB79],
    show ((-79 : ℝ) * -79 + 0 * 0) = 79 ^ 2 by norm_num]
  exact Real.sqrt_sq (by norm_num)

/-- Center distance for the pair `ballA` / `ballB81` is 81. -/
lemma distOf_ballA_ballB81 : distOf ballA ⟨0, 0⟩ ballB81 = 81 := by
  rw [distOf,
    show dxOf ballA ⟨0, 0⟩ ballB81 = -81 by norm_num [dxOf, ballA, ballB81],
    show dyOf ballA ⟨0, 0⟩ ballB81 = 0 by norm_num [dyOf, ballA, ballB81],
    show ((-81 : ℝ) * -81 + 0 * 0) = 81 ^ 2 by norm_num]
  exact Real.sqrt_sq (by norm_num)

/-- Center distance for the coincident pair `ballA` / `ballB0` is 0. -/
lemma distOf_ballA_ballB0 : distOf ballA ⟨0, 0⟩ ballB0 = 0 := by
  rw [distOf,
    show dxOf ballA ⟨0, 0⟩ ballB0 = 0 by norm_num [dxOf, ballA, ballB0],
    show dyOf ballA ⟨0, 0⟩ ballB0 = 0 by norm_num [dyOf, ballA, ballB0]]
  norm_num

/-- The candidate fold reports a collision exactly when the initial state
already did, or some candidate overlaps at the running position reached
when the loop processes it. -/
lemma foldl_hasCollided (cb : BallData) (t : ℝ) (l : List BallData) (st : LoopState) :
    ((l.foldl (collideStep cb t) st).hasCollided = true) ↔
      (st.hasCollided = true ∨
        ∃ i, ∃ h : i < l.length,
          overlapDetected cb (((l.take i).foldl (collideStep cb t) st).pos)
            (l.get ⟨i, h⟩)) := by
  induction l generalizing st with
  | nil => simp
  | cons a rest ih =>
    rw [List.foldl_cons, ih, collideStep_hasCollided]
    constructor
    · rintro ((hc | hd) | ⟨i, hi, hD⟩)
      · exact Or.inl hc
      · exact Or.inr ⟨0, by simp, hd⟩
      · exact Or.inr ⟨i + 1, by simpa using hi, hD⟩
    · rintro (hc | ⟨i, hi, hD⟩)
      · exact Or.inl (Or.inl hc)
      · cases i with
        | zero => exact Or.inl (Or.inr hD)
        | succ j => exact Or.inr ⟨j, by simpa using hi, hD⟩

/-- Concrete evaluation of a loop step on a detected overlap whose
relative velocity is separating: the flag is set, nothing else changes. -/
lemma collideStep_ballB_sep :
    collideStep ballA 1000 ⟨⟨-5, 0⟩, ⟨0, 0⟩, false, []⟩ ballB =
      ⟨⟨-5, 0⟩, ⟨0, 0⟩, true, []⟩ := by
  have hmin : minDistOf ballA ballB = 80 := by norm_num [minDistOf, ballA, ballB]
  have hcond : distOf ballA (⟨0, 0⟩ : Vec2) ballB < minDistOf ballA ballB ∧
      distOf ballA (⟨0, 0⟩ : Vec2) ballB > 0 := by
    rw [distOf_ballA_ballB, hmin]; norm_num
  have hspeed : relSpeed ballA ⟨0, 0⟩ ⟨-5, 0⟩ ballB = 5 := by
    rw [relSpeed, dxOf_ballA_ballB, dyOf_ballA_ballB, distOf_ballA_ballB]
    norm_num [ballB]
  simp only [collideStep]
  rw [if_pos hcond, if_pos (by rw [hspeed]; norm_num)]

/-- A loop step run at two different clock times from states agreeing on
everything but the update stamps keeps the states agreeing on velocity,
position, flag, and stamp-stripped update batch. -/
lemma collideStep_time_congr (cb : BallData) (t1 t2 : ℝ) (st1 st2 : LoopState)
    (ob : BallData) (hv : st1.vel = st2.vel) (hp : st1.pos = st2.pos)
    (hc : st1.hasCollided = st2.hasCollided)
    (hu : st1.otherBallUpdates.map stripTime = st2.otherBallUpdates.map stripTime) :
    ((collideStep cb t1 st1 ob).vel = (collideStep cb t2 st2 ob).vel ∧
     (collideStep cb t1 st1 ob).pos = (collideStep cb t2 st2 ob).pos ∧
     (collideStep cb t1 st1 ob).hasCollided = (collideStep cb t2 st2 ob).hasCollided ∧
     (collideStep cb t1 st1 ob).otherBallUpdates.map stripTime =
       (collideStep cb t2 st2 ob).otherBallUpdates.map stripTime) := by
  simp only [collideStep, hv, hp, hc]
  by_cases h : distOf cb st2.pos ob < minDistOf cb ob ∧ distOf cb st2.pos ob > 0
  · rw [if_pos h, if_pos h]
    by_cases hs : relSpeed cb st2.pos st2.vel ob > 0
    · rw [if_pos hs, if_pos hs]
      exact ⟨rfl, rfl, rfl, hu⟩
    · rw [if_neg hs, if_neg hs]
      refine ⟨rfl, rfl, rfl, ?_⟩
      simp only [List.map_append, hu, List.map_cons, List.map_nil, stripTime]
  · rw [if_neg h, if_neg h]
    exact ⟨hv, hp, hc, hu⟩

/-- The candidate fold run at two clock times from agreeing states keeps
the states agreeing on everything but the update stamps. -/
lemma foldl_time_congr (cb : BallData) (t1 t2 : ℝ) (l : List BallData)
    (st1 st2 : LoopState) (hv : st1.vel = st2.vel) (hp : st1.pos = st2.pos)
    (hc : st1.hasCollided = st2.hasCollided)
    (hu : st1.otherBallUpdates.map stripTime = st2.otherBallUpdates.map stripTime) :
    ((l.foldl (collideStep cb t1) st1).vel = (l.foldl (collideStep cb t2) st2).vel ∧
     (l.foldl (collideStep cb t1) st1).pos = (l.foldl (collideStep cb t2) st2).pos ∧
     (l.foldl (collideStep cb t1) st1).hasCollided =
       (l.foldl (collideStep cb t2) st2).hasCollided ∧
     (l.foldl (collideStep cb t1) st1).otherBallUpdates.map stripTime =
       (l.foldl (collideStep cb t2) st2).otherBallUpdates.map stripTime) := by
  induction l generalizing st1 st2 with
  | nil => exact ⟨hv, hp, hc, hu⟩
  | cons a rest ih =>
    rw [List.foldl_cons, List.foldl_cons]
    have h := collideStep_time_congr cb t1 t2 st1 st2 a hv hp hc hu
    exact ih _ _ h.1 h.2.1 h.2.2.1 h.2.2.2

/-- C1 (counterexample): `checkCollisions` on a roster where the only
candidate overlaps the acting ball (centers 40px apart, sizes 80) but the
relative velocity along the normal is separating returns
`collided = true` even though no overlap was resolved: the velocity and
position are returned unchanged and the deferred update batch is empty. -/
theorem checkCollisions_sep_overlap_sets_collided :
    (checkCollisions 1 ⟨0, 0⟩ ⟨-5, 0⟩ [ballA, ballB] 1000).collided = true ∧
    (checkCollisions 1 ⟨0, 0⟩ ⟨-5, 0⟩ [ballA, ballB] 1000).otherBallUpdates = [] ∧
    (checkCollisions 1 ⟨0, 0⟩ ⟨-5, 0⟩ [ballA, ballB] 1000).velocity = ⟨-5, 0⟩ ∧
    (checkCollisions 1 ⟨0, 0⟩ ⟨-5, 0⟩ [ballA, ballB] 1000).position = ⟨0, 0⟩ := by
  have h : checkCollisions 1 ⟨0, 0⟩ ⟨-5, 0⟩ [ballA, ballB] 1000 =
      ⟨⟨-5, 0⟩, ⟨0, 0⟩, true, []⟩ := by
    rw [checkCollisions_found 1 ⟨0, 0⟩ ⟨-5, 0⟩ [ballA, ballB] 1000 ballA rfl,
      show List.filter (candidateFilter 1 1000) [ballA, ballB] = [ballB] from rfl,
      List.foldl_cons, List.foldl_nil, collideStep_ballB_sep]
  rw [h]
  exact ⟨rfl, rfl, rfl, rfl⟩

/-- C1 (amended): when the acting id is found, the returned `collided`
flag is true exactly when at least one candidate overlaps the acting
ball's running position when the loop reaches it — overlap detection
alone sets the flag, even when the separating-velocity check skips the
resolution. -/
theorem checkCollisions_collided_iff_detected (a : ℕ) (p v : Vec2)
    (balls : List BallData) (t : ℝ) (cb : BallData)
    (hfind : balls.find? (fun ball => ball.id == a) = some cb) :
    ((checkCollisions a p v balls t).collided = true ↔
      ∃ i, ∃ h : i < (balls.filter (candidateFilter a t)).length,
        overlapDetected cb
          ((((balls.filter (candidateFilter a t)).take i).foldl (collideStep cb t)
            ⟨v, p, false, []⟩).pos)
          ((balls.filter (candidateFilter a t)).get ⟨i, h⟩)) := by
  rw [checkCollisions_found a p v balls t cb hfind]
  exact (foldl_hasCollided cb t _ _).trans (by simp)

/-- Witness for the amended C1 theorem at a concrete roster. -/
theorem checkCollisions_collided_iff_detected_witness :
    List.find? (fun ball => ball.id == 1) [ballA, ballB] = some ballA ∧
    ((checkCollisions 1 ⟨0, 0⟩ ⟨-5, 0⟩ [ballA, ballB] 1000).collided = true ↔
      ∃ i, ∃ h : i < (List.filter (candidateFilter 1 1000) [ballA, ballB]).length,
        overlapDetected ballA
          (((List.take i (List.filter (candidateFilter 1 1000) [ballA, ballB])).foldl
            (collideStep ballA 1000) ⟨⟨-5, 0⟩, ⟨0, 0⟩, false, []⟩).pos)
          ((List.filter (candidateFilter 1 1000) [ballA, ballB]).get ⟨i, h⟩)) :=
  ⟨rfl, checkCollisions_collided_iff_detected 1 ⟨0, 0⟩ ⟨-5, 0⟩ [ballA, ballB] 1000 ballA rfl⟩

/-- C4: a loop step of `checkCollisions` detects an overlap exactly when
the center-to-center distance d satisfies `0 < d < (sizeA + sizeB) / 2`;
concretely, two size-80 balls overlap at center distance 79 but not at 81,
and coincident centers (d = 0) are skipped. -/
theorem collision_detection_iff_distance :
    (∀ (cb : BallData) (t : ℝ) (st : LoopState) (ob : BallData),
      ((collideStep cb t st ob).hasCollided = true ↔
        (st.hasCollided = true ∨
          (0 < distOf cb st.pos ob ∧ distOf cb st.pos ob < (cb.size + ob.size) / 2)))) ∧
    (collideStep ballA 0 initState ballB79).hasCollided = true ∧
    (collideStep ballA 0 initState ballB81).hasCollided = false ∧
    (collideStep ballA 0 initState ballB0).hasCollided = false := by
  have hgen : ∀ (cb : BallData) (t : ℝ) (st : LoopState) (ob : BallData),
      ((collideStep cb t st ob).hasCollided = true ↔
        (st.hasCollided = true ∨
          (0 < distOf cb st.pos ob ∧ distOf cb st.pos ob < (cb.size + ob.size) / 2))) := by
    intro cb t st ob
    simpa [overlapDetected, minDistOf] using collideStep_hasCollided cb t st ob
  refine ⟨hgen, ?_, ?_, ?_⟩
  · rw [hgen]
    refine Or.inr ?_
    have : distOf ballA (initState.pos) ballB79 = 79 := distOf_ballA_ballB79
    rw [this]
    norm_num [ballA, ballB79]
  · rw [Bool.eq_false_iff]
    intro hcontra
    rw [hgen] at hcontra
    rcases hcontra with hc | ⟨_, hd⟩
    · exact absurd hc (by simp [initState])
    · rw [show distOf ballA (initState.pos) ballB81 = 81 from distOf_ballA_ballB81] at hd
      norm_num [ballA, ballB81] at hd
  · rw [Bool.eq_false_iff]
    intro hcontra
    rw [hgen] at hcontra
    rcases hcontra with hc | ⟨hd, _⟩
    · exact absurd hc (by simp [initState])
    · rw [show distOf ballA (initState.pos) ballB0 = 0 from distOf_ballA_ballB0] at hd
      exact absurd hd (by norm_num)

/-- C5: membership in the candidate set built by `checkCollisions` — a
roster ball is a candidate exactly when it is not the acting ball, is not
being dragged, and its last collision stamp is absent or more than 50ms
older than the current time. -/
theorem candidate_set_characterization (a : ℕ) (t : ℝ) (balls : List BallData)
    (b : BallData) :
    b ∈ balls.filter (candidateFilter a t) ↔
      (b ∈ balls ∧ b.id ≠ a ∧ b.isDragging = false ∧
        (b.lastCollisionTime = none ∨
          ∃ t0, b.lastCollisionTime = some t0 ∧ t - t0 > 50)) := by
  rw [List.mem_filter]
  have hpred : candidateFilter a t b = true ↔
      (b.id ≠ a ∧ b.isDragging = false ∧
        (b.lastCollisionTime = none ∨
          ∃ t0, b.lastCollisionTime = some t0 ∧ t - t0 > 50)) := by
    cases hb : b.lastCollisionTime with
    | none => simp [candidateFilter, hb]
    | some t0 => simp [candidateFilter, hb, and_assoc]
  rw [hpred]

/-- C2: on every resolved pairwise collision (overlap detected and the
relative normal velocity not separating), the loop step appends exactly
one deferred update, addressed to the candidate, and the acting ball's
momentum change `mass1 * Δv` cancels the partner's enqueued momentum
change `mass2 * Δv` componentwise along the collision normal. -/
theorem collideStep_momentum_equal_opposite (cb ob : BallData) (t : ℝ)
    (st : LoopState) (hov : overlapDetected cb st.pos ob)
    (hsp : ¬ relSpeed cb st.pos st.vel ob > 0) :
    ∃ upd : CollisionUpdate,
      (collideStep cb t st ob).otherBallUpdates = st.otherBallUpdates ++ [upd] ∧
      upd.id = ob.id ∧
      massOf cb.size * ((collideStep cb t st ob).vel.x - st.vel.x) +
        massOf ob.size * (upd.velocity.x - ob.velocity.x) = 0 ∧
      massOf cb.size * ((collideStep cb t st ob).vel.y - st.vel.y) +
        massOf ob.size * (upd.velocity.y - ob.velocity.y) = 0 := by
  have hcond : distOf cb st.pos ob < minDistOf cb ob ∧ distOf cb st.pos ob > 0 :=
    ⟨hov.2, hov.1⟩
  simp only [collideStep]
  rw [if_pos hcond, if_neg hsp]
  refine ⟨_, rfl, rfl, ?_, ?_⟩ <;> · dsimp only; ring

/-- Witness for the C2 theorem: a concrete head-on approach of two size-80
balls whose centers are 40px apart. -/
theorem collideStep_momentum_equal_opposite_witness :
    overlapDetected ballA ⟨0, 0⟩ ballB ∧
    ¬ relSpeed ballA ⟨0, 0⟩ ⟨5, 0⟩ ballB > 0 ∧
    (∃ upd : CollisionUpdate,
      (collideStep ballA 7 ⟨⟨5, 0⟩, ⟨0, 0⟩, false, []⟩ ballB).otherBallUpdates =
        [] ++ [upd] ∧
      upd.id = ballB.id ∧
      massOf ballA.size *
          ((collideStep ballA 7 ⟨⟨5, 0⟩, ⟨0, 0⟩, false, []⟩ ballB).vel.x - 5) +
        massOf ballB.size * (upd.velocity.x - ballB.velocity.x) = 0 ∧
      massOf ballA.size *
          ((collideStep ballA 7 ⟨⟨5, 0⟩, ⟨0, 0⟩, false, []⟩ ballB).vel.y - 0) +
        massOf ballB.size * (upd.velocity.y - ballB.velocity.y) = 0) := by
  have hov : overlapDetected ballA ⟨0, 0⟩ ballB := by
    constructor
    · rw [distOf_ballA_ballB]; norm_num
    · rw [distOf_ballA_ballB]; norm_num [minDistOf, ballA, ballB]
  have hsp : ¬ relSpeed ballA ⟨0, 0⟩ ⟨5, 0⟩ ballB > 0 := by
    rw [show relSpeed ballA ⟨0, 0⟩ ⟨5, 0⟩ ballB = -5 by
      rw [relSpeed, dxOf_ballA_ballB, dyOf_ballA_ballB, distOf_ballA_ballB]
      norm_num [ballB]]
    norm_num
  exact ⟨hov, hsp,
    collideStep_momentum_equal_opposite ballA ballB 7 ⟨⟨5, 0⟩, ⟨0, 0⟩, false, []⟩ hov hsp⟩

/-- C3 (counterexample): two calls to `checkCollisions` with identical
acting id, tentative position, tentative velocity, and roster snapshot
return different results when made at different clock times — at time 120
the overlapping partner is still inside the 50ms cooldown and no collision
is reported, at time 200 it is a candidate and `collided` is true. -/
theorem checkCollisions_time_dependent :
    (checkCollisions 1 ⟨0, 0⟩ ⟨0, 0⟩ [ballA, ballBcool] 120).collided = false ∧
    (checkCollisions 1 ⟨0, 0⟩ ⟨0, 0⟩ [ballA, ballBcool] 200).collided = true := by
  constructor
  · have hfB : candidateFilter 1 120 ballBcool = false := by
      have h50 : ¬((120 : ℝ) - 100 > 50) := by norm_num
      simp [candidateFilter, ballBcool, decide_eq_false h50]
    have hfilter : List.filter (candidateFilter 1 120) [ballA, ballBcool] = [] := by
      rw [List.filter_cons, List.filter_cons]
      simp [hfB, show candidateFilter 1 120 ballA = false from rfl]
    rw [checkCollisions_found 1 ⟨0, 0⟩ ⟨0, 0⟩ [ballA, ballBcool] 120 ballA rfl, hfilter]
    rfl
  · have hfB : candidateFilter 1 200 ballBcool = true := by
      have h50 : (200 : ℝ) - 100 > 50 := by norm_num
      simp [candidateFilter, ballBcool, decide_eq_true h50]
    have hfilter : List.filter (candidateFilter 1 200) [ballA, ballBcool] = [ballBcool] := by
      rw [List.filter_cons, List.filter_cons]
      simp [hfB, show candidateFilter 1 200 ballA = false from rfl]
    rw [checkCollisions_found 1 ⟨0, 0⟩ ⟨0, 0⟩ [ballA, ballBcool] 200 ballA rfl, hfilter,
      List.foldl_cons, List.foldl_nil]
    rw [show ((collideStep ballA 200 ⟨⟨0, 0⟩, ⟨0, 0⟩, false, []⟩ ballBcool).hasCollided) =
        ((collideStep ballA 200 ⟨⟨0, 0⟩, ⟨0, 0⟩, false, []⟩ ballBcool).hasCollided) from rfl]
    rw [collideStep_hasCollided]
    refine Or.inr ?_
    constructor
    · rw [show distOf ballA ((⟨⟨0, 0⟩, ⟨0, 0⟩, false, []⟩ : LoopState).pos) ballBcool = 40
        from distOf_ballA_ballBcool]
      norm_num
    · rw [show distOf ballA ((⟨⟨0, 0⟩, ⟨0, 0⟩, false, []⟩ : LoopState).pos) ballBcool = 40
        from distOf_ballA_ballBcool]
      norm_num [minDistOf, ballA, ballBcool]

/-- C3 (amended): `checkCollisions` is deterministic in its four arguments
together with the sampled clock time; moreover the time enters only
through the 50ms cooldown filtering and the stamps written into the
deferred updates — two calls whose times classify every roster ball the
same way agree on velocity, position, the collided flag, and the
stamp-stripped update batch. -/
theorem checkCollisions_deterministic_given_time (a : ℕ) (p v : Vec2)
    (balls : List BallData) (t1 t2 : ℝ)
    (hfilter : ∀ b ∈ balls, candidateFilter a t1 b = candidateFilter a t2 b) :
    ((checkCollisions a p v balls t1).velocity = (checkCollisions a p v balls t2).velocity ∧
     (checkCollisions a p v balls t1).position = (checkCollisions a p v balls t2).position ∧
     (checkCollisions a p v balls t1).collided = (checkCollisions a p v balls t2).collided ∧
     (checkCollisions a p v balls t1).otherBallUpdates.map stripTime =
       (checkCollisions a p v balls t2).otherBallUpdates.map stripTime) := by
  cases hfind : balls.find? (fun ball => ball.id == a) with
  | none =>
    rw [checkCollisions_notfound a p v balls t1 hfind,
      checkCollisions_notfound a p v balls t2 hfind]
    exact ⟨rfl, rfl, rfl, rfl⟩
  | some cb =>
    rw [checkCollisions_found a p v balls t1 cb hfind,
      checkCollisions_found a p v balls t2 cb hfind]
    have hfl : balls.filter (candidateFilter a t1) = balls.filter (candidateFilter a t2) :=
      List.filter_congr hfilter
    rw [hfl]
    exact foldl_time_congr cb t1 t2 (balls.filter (candidateFilter a t2))
      ⟨v, p, false, []⟩ ⟨v, p, false, []⟩ rfl rfl rfl rfl

/-- Witness for the amended C3 theorem: a roster with no cooldown stamps
is classified identically at times 0 and 100. -/
theorem checkCollisions_deterministic_given_time_witness :
    (∀ b ∈ [ballA, ballB], candidateFilter 1 0 b = candidateFilter 1 100 b) ∧
    ((checkCollisions 1 ⟨0, 0⟩ ⟨-5, 0⟩ [ballA, ballB] 0).velocity =
       (checkCollisions 1 ⟨0, 0⟩ ⟨-5, 0⟩ [ballA, ballB] 100).velocity ∧
     (checkCollisions 1 ⟨0, 0⟩ ⟨-5, 0⟩ [ballA, ballB] 0).position =
       (checkCollisions 1 ⟨0, 0⟩ ⟨-5, 0⟩ [ballA, ballB] 100).position ∧
     (checkCollisions 1 ⟨0, 0⟩ ⟨-5, 0⟩ [ballA, ballB] 0).collided =
       (checkCollisions 1 ⟨0, 0⟩ ⟨-5, 0⟩ [ballA, ballB] 100).collided ∧
     (checkCollisions 1 ⟨0, 0⟩ ⟨-5, 0⟩ [ballA, ballB] 0).otherBallUpdates.map stripTime =
       (checkCollisions 1 ⟨0, 0⟩ ⟨-5, 0⟩ [ballA, ballB] 100).otherBallUpdates.map
         stripTime) := by
  have hmem : ∀ b ∈ [ballA, ballB], candidateFilter 1 0 b = candidateFilter 1 100 b := by
    intro b hb
    rcases List.mem_cons.mp hb with rfl | hb2
    · rfl
    · rcases List.mem_singleton.mp hb2 with rfl
      rfl
  exact ⟨hmem,
    checkCollisions_deterministic_given_time 1 ⟨0, 0⟩ ⟨-5, 0⟩ [ballA, ballB] 0 100 hmem⟩

/-- C7 (counterexample): with the container bounds `(0, 0)` — the initial
bounds value in the component before the first measurement — a size-80
ball's post-tick y position is clamped to 0, which lies outside the
claimed interval `[0, containerHeight - size] = [0, -80]`. -/
theorem tick_position_outside_small_container :
    (0 : ℝ) - 80 < (animateTick ⟨0, 0⟩ 80 ⟨0, 0⟩ ⟨0, 0⟩ none).pos.y := by
  have h : (0 : ℝ) ≤ (animateTick ⟨0, 0⟩ 80 ⟨0, 0⟩ ⟨0, 0⟩ none).pos.y :=
    le_max_left 0 _
  linarith

/-- C7 (amended): after every integrator tick whose container bounds are
at least the ball size in both axes, the final position components lie
within `[0, containerDimension - size]`. -/
theorem tick_position_within_bounds (bounds : Vec2) (size : ℝ) (pos vel : Vec2)
    (cr : Option (Vec2 × Vec2)) (hx : size ≤ bounds.x) (hy : size ≤ bounds.y) :
    (0 ≤ (animateTick bounds size pos vel cr).pos.x ∧
     (animateTick bounds size pos vel cr).pos.x ≤ bounds.x - size ∧
     0 ≤ (animateTick bounds size pos vel cr).pos.y ∧
     (animateTick bounds size pos vel cr).pos.y ≤ bounds.y - size) := by
  refine ⟨le_max_left 0 _, ?_, le_max_left 0 _, ?_⟩
  · exact max_le (by linarith) (min_le_left _ _)
  · exact max_le (by linarith) (min_le_left _ _)

/-- Witness for the amended C7 theorem at a concrete tick. -/
theorem tick_position_within_bounds_witness :
    (80 : ℝ) ≤ (⟨800, 600⟩ : Vec2).x ∧ (80 : ℝ) ≤ (⟨800, 600⟩ : Vec2).y ∧
    (0 ≤ (animateTick ⟨800, 600⟩ 80 ⟨100, 100⟩ ⟨0, 0⟩ none).pos.x ∧
     (animateTick ⟨800, 600⟩ 80 ⟨100, 100⟩ ⟨0, 0⟩ none).pos.x ≤ (⟨800, 600⟩ : Vec2).x - 80 ∧
     0 ≤ (animateTick ⟨800, 600⟩ 80 ⟨100, 100⟩ ⟨0, 0⟩ none).pos.y ∧
     (animateTick ⟨800, 600⟩ 80 ⟨100, 100⟩ ⟨0, 0⟩ none).pos.y ≤ (⟨800, 600⟩ : Vec2).y - 80) :=
  ⟨by norm_num, by norm_num,
    tick_position_within_bounds ⟨800, 600⟩ 80 ⟨100, 100⟩ ⟨0, 0⟩ none
      (by norm_num) (by norm_num)⟩

/-- C9: on pointer-up from a drag, the release velocity is the smoothed
drag-velocity accumulator scaled componentwise by
`momentumScale = 0.75 * (1 + mass * 0.2)` with `mass = (size/80)^2`, and
the ball stops dragging and resumes animating. -/
theorem release_velocity_momentum_scale (size : ℝ) (s : DragState)
    (h : s.isDragging = true) :
    ((handleMouseUp size s).velocity =
      ⟨s.dragVelocity.x * (0.75 * (1 + (size / 80) ^ 2 * 0.2)),
       s.dragVelocity.y * (0.75 * (1 + (size / 80) ^ 2 * 0.2))⟩ ∧
     (handleMouseUp size s).isDragging = false ∧
     (handleMouseUp size s).isAnimating = true) := by
  simp [handleMouseUp, h, momentumScale, massOf]

/-- Witness for the C9 theorem at size 80 with accumulator `(4, 6)`. -/
theorem release_velocity_momentum_scale_witness :
    dragS0.isDragging = true ∧
    ((handleMouseUp 80 dragS0).velocity =
      ⟨dragS0.dragVelocity.x * (0.75 * (1 + ((80 : ℝ) / 80) ^ 2 * 0.2)),
       dragS0.dragVelocity.y * (0.75 * (1 + ((80 : ℝ) / 80) ^ 2 * 0.2))⟩ ∧
     (handleMouseUp 80 dragS0).isDragging = false ∧
     (handleMouseUp 80 dragS0).isAnimating = true) :=
  ⟨rfl, release_velocity_momentum_scale 80 dragS0 rfl⟩

/-- C6: on floor contact (post-collision y at or below the floor line,
with the floor line strictly inside the container), the tick clamps y to
`containerHeight - size` and reflects the vertical velocity with the
bounce coefficient; when the reflected `|velY| < 3` it is zeroed, and in
that case, when additionally the post-wall `|velX| < 1`, the ball stops
animating with velocity `(0, 0)`, otherwise it keeps animating. -/
theorem floor_contact_bounce_and_settle (bounds : Vec2) (size : ℝ) (pos vel : Vec2)
    (cr : Option (Vec2 × Vec2))
    (hfloor : (postCollPos size pos vel cr).y ≥ bounds.y - size)
    (hdepth : 0 < bounds.y - size) :
    ((animateTick bounds size pos vel cr).pos.y = bounds.y - size ∧
     (3 ≤ |(-(postCollVel size vel cr).y * bounceOf size)| →
       (animateTick bounds size pos vel cr).vel.y =
         -(postCollVel size vel cr).y * bounceOf size ∧
       (animateTick bounds size pos vel cr).vel.x =
         postWallVelX bounds size (postCollPos size pos vel cr).x
           (postCollVel size vel cr).x ∧
       (animateTick bounds size pos vel cr).animating = true) ∧
     (|(-(postCollVel size vel cr).y * bounceOf size)| < 3 →
       ((|postWallVelX bounds size (postCollPos size pos vel cr).x
            (postCollVel size vel cr).x| < 1 →
          (animateTick bounds size pos vel cr).vel = ⟨0, 0⟩ ∧
          (animateTick bounds size pos vel cr).animating = false) ∧
        (1 ≤ |postWallVelX bounds size (postCollPos size pos vel cr).x
            (postCollVel size vel cr).x| →
          (animateTick bounds size pos vel cr).vel =
            ⟨postWallVelX bounds size (postCollPos size pos vel cr).x
              (postCollVel size vel cr).x, 0⟩ ∧
          (animateTick bounds size pos vel cr).animating = true)))) := by
  have hclampy : (clampPos bounds size
      ⟨postWallX bounds size (postCollPos size pos vel cr).x, bounds.y - size⟩).y =
      bounds.y - size := by
    dsimp only [clampPos]
    rw [min_self]
    exact max_eq_right hdepth.le
  simp only [animateTick, animateRaw]
  rw [if_pos hfloor]
  by_cases h3 : |(-(postCollVel size vel cr).y * bounceOf size)| < 3
  · rw [if_pos h3]
    by_cases hvx : |postWallVelX bounds size (postCollPos size pos vel cr).x
        (postCollVel size vel cr).x| < 1
    · rw [if_pos (show |(0 : ℝ)| < 0.1 ∧
          |postWallVelX bounds size (postCollPos size pos vel cr).x
            (postCollVel size vel cr).x| < 1 from ⟨by norm_num, hvx⟩)]
      refine ⟨hclampy, fun hge => absurd h3 (not_lt.mpr hge), fun _ => ⟨?_, ?_⟩⟩
      · exact fun _ => ⟨rfl, rfl⟩
      · intro h1
        exact absurd hvx (not_lt.mpr h1)
    · rw [if_neg (fun hcon => hvx hcon.2), if_neg (not_le.mpr hdepth)]
      refine ⟨hclampy, fun hge => absurd h3 (not_lt.mpr hge), fun _ => ⟨?_, ?_⟩⟩
      · intro hlt
        exact absurd hlt hvx
      · exact fun _ => ⟨rfl, rfl⟩
  · rw [if_neg h3]
    have hns : ¬(|(-(postCollVel size vel cr).y * bounceOf size)| < 0.1 ∧
        |postWallVelX bounds size (postCollPos size pos vel cr).x
          (postCollVel size vel cr).x| < 1) := by
      intro hcon
      have h1 := hcon.1
      have h2 := not_lt.mp h3
      linarith
    rw [if_neg hns, if_neg (not_le.mpr hdepth)]
    exact ⟨hclampy, fun _ => ⟨rfl, rfl, rfl⟩, fun hlt => absurd hlt h3⟩

/-- Witness for the C6 theorem: size-80 ball in an 800x600 container
arriving at the floor at vertical speed 10.6. -/
theorem floor_contact_bounce_and_settle_witness :
    (postCollPos 80 ⟨100, 515⟩ ⟨0, 10⟩ none).y ≥ (⟨800, 600⟩ : Vec2).y - 80 ∧
    (0 : ℝ) < (⟨800, 600⟩ : Vec2).y - 80 ∧
    ((animateTick ⟨800, 600⟩ 80 ⟨100, 515⟩ ⟨0, 10⟩ none).pos.y =
        (⟨800, 600⟩ : Vec2).y - 80 ∧
     (3 ≤ |(-(postCollVel 80 ⟨0, 10⟩ none).y * bounceOf 80)| →
       (animateTick ⟨800, 600⟩ 80 ⟨100, 515⟩ ⟨0, 10⟩ none).vel.y =
         -(postCollVel 80 ⟨0, 10⟩ none).y * bounceOf 80 ∧
       (animateTick ⟨800, 600⟩ 80 ⟨100, 515⟩ ⟨0, 10⟩ none).vel.x =
         postWallVelX ⟨800, 600⟩ 80 (postCollPos 80 ⟨100, 515⟩ ⟨0, 10⟩ none).x
           (postCollVel 80 ⟨0, 10⟩ none).x ∧
       (animateTick ⟨800, 600⟩ 80 ⟨100, 515⟩ ⟨0, 10⟩ none).animating = true) ∧
     (|(-(postCollVel 80 ⟨0, 10⟩ none).y * bounceOf 80)| < 3 →
       ((|postWallVelX ⟨800, 600⟩ 80 (postCollPos 80 ⟨100, 515⟩ ⟨0, 10⟩ none).x
            (postCollVel 80 ⟨0, 10⟩ none).x| < 1 →
          (animateTick ⟨800, 600⟩ 80 ⟨100, 515⟩ ⟨0, 10⟩ none).vel = ⟨0, 0⟩ ∧
          (animateTick ⟨800, 600⟩ 80 ⟨100, 515⟩ ⟨0, 10⟩ none).animating = false) ∧
        (1 ≤ |postWallVelX ⟨800, 600⟩ 80 (postCollPos 80 ⟨100, 515⟩ ⟨0, 10⟩ none).x
            (postCollVel 80 ⟨0, 10⟩ none).x| →
          (animateTick ⟨800, 600⟩ 80 ⟨100, 515⟩ ⟨0, 10⟩ none).vel =
            ⟨postWallVelX ⟨800, 600⟩ 80 (postCollPos 80 ⟨100, 515⟩ ⟨0, 10⟩ none).x
              (postCollVel 80 ⟨0, 10⟩ none).x, 0⟩ ∧
          (animateTick ⟨800, 600⟩ 80 ⟨100, 515⟩ ⟨0, 10⟩ none).animating = true)))) := by
  have hfloor : (postCollPos 80 ⟨100, 515⟩ ⟨0, 10⟩ none).y ≥ (⟨800, 600⟩ : Vec2).y - 80 := by
    show (515 : ℝ) + (10 + gravityOf 80) ≥ 600 - 80
    have hg : gravityOf 80 = 0.6 := by
      rw [gravityOf, show massOf 80 = 1 by norm_num [massOf],
        min_eq_left (by norm_num : (1 : ℝ) ≤ 2)]
      norm_num
    rw [hg]
    norm_num
  have hdepth : (0 : ℝ) < (⟨800, 600⟩ : Vec2).y - 80 := by norm_num
  exact ⟨hfloor, hdepth,
    floor_contact_bounce_and_settle ⟨800, 600⟩ 80 ⟨100, 515⟩ ⟨0, 10⟩ none hfloor hdepth⟩

/-- C8 (counterexample): a patch supplying a freshly constructed position
object whose coordinates equal the stored ones — exactly what the Ball
component's report effect sends against the distinct object created by
`addBall` — is not skipped: the strict-inequality check compares object
references, so `updateBall` takes the write path and emits a change
although no supplied field value differs, and the roster it produces is
value-identical to the previous one. -/
theorem updateBall_emits_on_equal_value_fresh_object :
    patchFresh00.position = some ⟨⟨0, 0⟩, false⟩ ∧
    ballA.position = ⟨0, 0⟩ ∧
    (updateBall 1 patchFresh00 [ballA]).2 = true ∧
    (updateBall 1 patchFresh00 [ballA]).1 = [ballA] := by
  have hch : patchChanges ballA patchFresh00 :=
    Or.inr (Or.inl ⟨⟨⟨0, 0⟩, false⟩, rfl, rfl⟩)
  have hmerge : mergePatch ballA patchFresh00 = ballA := by
    simp [mergePatch, patchFresh00, ballA]
  have key : updateBall 1 patchFresh00 [ballA] = ([ballA], true) := by
    simp only [updateBall,
      show List.find? (fun ball => ball.id == 1) [ballA] = some ballA from rfl]
    rw [if_pos hch]
    simp [hmerge]
  exact ⟨rfl, rfl, by rw [key], by rw [key]⟩

/-- C8 (amended): `updateBall` merges only the supplied fields into the
found ball's record; it skips the write — returning the previous array
itself, emitting no change — exactly when the id is found and no supplied
field registers as changed under the source's strict-inequality test,
which compares the primitive fields by value but the object-valued
position and velocity by reference, so a supplied fresh object counts as
a change even when its coordinates equal the stored ones.  The roster
length is always preserved and balls with a different id keep their full
record at their slot. -/
theorem updateBall_merges_and_skips :
    (∀ (prev : List BallData) (id : ℕ) (u : BallPatch) (ex : BallData),
      prev.find? (fun ball => ball.id == id) = some ex →
      ¬ patchChanges ex u → updateBall id u prev = (prev, false)) ∧
    (∀ (prev : List BallData) (id : ℕ) (u : BallPatch),
      ((updateBall id u prev).2 = true ↔
        ∃ ex, prev.find? (fun ball => ball.id == id) = some ex ∧ patchChanges ex u)) ∧
    (∀ (prev : List BallData) (id : ℕ) (u : BallPatch),
      ((updateBall id u prev).1).length = prev.length) ∧
    (∀ (prev : List BallData) (id : ℕ) (u : BallPatch) (i : ℕ) (b : BallData),
      prev[i]? = some b → b.id ≠ id → ((updateBall id u prev).1)[i]? = some b) ∧
    (∀ (b : BallData) (u : BallPatch),
      (u.position = none → (mergePatch b u).position = b.position) ∧
      (∀ w, u.position = some w → (mergePatch b u).position = w.val) ∧
      (u.velocity = none → (mergePatch b u).velocity = b.velocity) ∧
      (∀ w, u.velocity = some w → (mergePatch b u).velocity = w.val) ∧
      (u.isAnimating = none → (mergePatch b u).isAnimating = b.isAnimating) ∧
      (∀ w, u.isAnimating = some w → (mergePatch b u).isAnimating = w) ∧
      (u.isDragging = none → (mergePatch b u).isDragging = b.isDragging) ∧
      (∀ w, u.isDragging = some w → (mergePatch b u).isDragging = w) ∧
      (u.size = none → (mergePatch b u).size = b.size) ∧
      (∀ w, u.size = some w → (mergePatch b u).size = w) ∧
      (u.lastCollisionTime = none →
        (mergePatch b u).lastCollisionTime = b.lastCollisionTime) ∧
      (∀ w, u.lastCollisionTime = some w → (mergePatch b u).lastCollisionTime = w)) := by
  refine ⟨?_, ?_, ?_, ?_, ?_⟩
  · intro prev id u ex hfind hch
    simp only [updateBall, hfind]
    rw [if_neg hch]
  · intro prev id u
    cases hfind : prev.find? (fun ball => ball.id == id) with
    | none =>
      simp only [updateBall, hfind]
      constructor
      · intro hcontra
        exact absurd hcontra (by simp)
      · rintro ⟨ex, hex, -⟩
        exact absurd hex (by simp [hfind])
    | some ex =>
      simp only [updateBall, hfind]
      split_ifs with h
      · exact ⟨fun _ => ⟨ex, rfl, h⟩, fun _ => rfl⟩
      · constructor
        · intro hcontra
          exact absurd hcontra (by simp)
        · rintro ⟨ex2, hex2, hch2⟩
          rw [Option.some_inj] at hex2
          exact absurd (hex2 ▸ hch2) h
  · intro prev id u
    cases hfind : prev.find? (fun ball => ball.id == id) with
    | none => simp [updateBall, hfind]
    | some ex =>
      simp only [updateBall, hfind]
      split_ifs
      · exact List.length_map prev _
      · rfl
  · intro prev id u i b hib hbid
    cases hfind : prev.find? (fun ball => ball.id == id) with
    | none => simp [updateBall, hfind, hib]
    | some ex =>
      simp only [updateBall, hfind]
      split_ifs
      · rw [List.getElem?_map, hib, Option.map_some']
        have : (b.id == id) = false := beq_eq_false_iff_ne.mpr hbid
        rw [if_neg (by simp [this])]
      · exact hib
  · intro b u
    refine ⟨?_, ?_, ?_, ?_, ?_, ?_, ?_, ?_, ?_, ?_, ?_, ?_⟩ <;>
      (intros; simp_all [mergePatch])

/-- Witness for the amended C8 theorem: patching a one-ball roster with
the stored position object itself is skipped with no change emitted, the
same patch sent as a fresh object does emit, a two-ball roster keeps the
non-targeted ball, and a supplied position field is merged by value. -/
theorem updateBall_merges_and_skips_witness :
    (List.find? (fun ball => ball.id == 1) [ballA] = some ballA ∧
      ¬ patchChanges ballA patchSameRef00 ∧
      updateBall 1 patchSameRef00 [ballA] = ([ballA], false)) ∧
    ([ballA, ballB][1]? = some ballB ∧ ballB.id ≠ 1 ∧
      ((updateBall 1 patchFresh00 [ballA, ballB]).1)[1]? = some ballB) ∧
    (patchFresh00.position = some ⟨⟨0, 0⟩, false⟩ ∧
      (mergePatch ballB patchFresh00).position = ⟨0, 0⟩) := by
  have hch : ¬ patchChanges ballA patchSameRef00 := by
    simp [patchChanges, patchSameRef00]
  refine ⟨⟨rfl, hch, updateBall_merges_and_skips.1 [ballA] 1 patchSameRef00 ballA rfl hch⟩,
    ⟨rfl, by norm_num [ballB],
      updateBall_merges_and_skips.2.2.2.1 [ballA, ballB] 1 patchFresh00 1 ballB rfl
        (by norm_num [ballB])⟩,
    ⟨rfl, (updateBall_merges_and_skips.2.2.2.2 ballB patchFresh00).2.1
      ⟨⟨0, 0⟩, false⟩ rfl⟩⟩

/-- C10: `applyCollisionUpdates` changes only the balls addressed by the
batch — an empty batch returns the state unchanged, the roster length is
preserved, a ball whose id is in no batch entry keeps its full record at
its slot, and every slot keeps its ball id (no creation, removal, or
reorder). -/
theorem applyCollisionUpdates_frame :
    (∀ prev : List BallData, applyCollisionUpdates [] prev = prev) ∧
    (∀ (us : List CollisionUpdate) (prev : List BallData),
      (applyCollisionUpdates us prev).length = prev.length) ∧
    (∀ (us : List CollisionUpdate) (prev : List BallData) (i : ℕ) (b : BallData),
      prev[i]? = some b → (∀ u ∈ us, u.id ≠ b.id) →
      (applyCollisionUpdates us prev)[i]? = some b) ∧
    (∀ (us : List CollisionUpdate) (prev : List BallData) (i : ℕ),
      ((applyCollisionUpdates us prev)[i]?).map (fun ball => ball.id) =
        (prev[i]?).map (fun ball => ball.id)) := by
  refine ⟨?_, ?_, ?_, ?_⟩
  · intro prev
    rfl
  · intro us prev
    simp only [applyCollisionUpdates]
    split_ifs
    · rfl
    · exact List.length_map prev _
  · intro us prev i b hib hid
    simp only [applyCollisionUpdates]
    split_ifs
    · exact hib
    · rw [List.getElem?_map, hib, Option.map_some']
      have hnone : us.find? (fun u => u.id == b.id) = none := by
        rw [List.find?_eq_none]
        intro u hu
        simpa using hid u hu
      rw [hnone]
  · intro us prev i
    simp only [applyCollisionUpdates]
    split_ifs
    · rfl
    · rw [List.getElem?_map]
      cases hib : prev[i]? with
      | none => rfl
      | some b =>
        rw [Option.map_some', Option.map_some']
        cases hf : us.find? (fun u => u.id == b.id) with
        | none => simp [hf]
        | some u =>
          have hid : u.id = b.id := by
            have := List.find?_some hf
            simpa using this
          simp [hf, mergeUpdate, hid]

/-- Witness for the C10 theorem: a batch addressed to ball id 2 leaves
`ballA` (id 1) untouched at its slot, an empty batch is the identity, and
the length is preserved. -/
theorem applyCollisionUpdates_frame_witness :
    ([ballA, ballB][0]? = some ballA ∧ (∀ u ∈ [collUpd2], u.id ≠ ballA.id) ∧
      (applyCollisionUpdates [collUpd2] [ballA, ballB])[0]? = some ballA) ∧
    applyCollisionUpdates [] [ballA, ballB] = [ballA, ballB] ∧
    (applyCollisionUpdates [collUpd2] [ballA, ballB]).length = 2 := by
  have hid : ∀ u ∈ [collUpd2], u.id ≠ ballA.id := by
    intro u hu
    rcases List.mem_singleton.mp hu with rfl
    norm_num [collUpd2, ballA]
  refine ⟨⟨rfl, hid, applyCollisionUpdates_frame.2.2.1 [collUpd2] [ballA, ballB] 0 ballA
      rfl hid⟩,
    applyCollisionUpdates_frame.1 [ballA, ballB], ?_⟩
  rw [applyCollisionUpdates_frame.2.1 [collUpd2] [ballA, ballB]]
  rfl

end
